import Mathlib

/-!
# Template gallery and remix bridge

A shallow embedding of the template discovery and remix logic of the
prompt-enhancer front end:

* `src/components/TemplatesGallery.js`: `filteredTemplates`, `fetchTemplates`,
  `handleCreate`;
* `src/App.js`: `handleRemix`.

JavaScript strings are modelled by `String` (well-formed text, on which searching
by code unit and by code point agree), arrays by `List`, optional object
properties by `Option`.  React state is an explicit record; the calls that leave
the component (HTTP, token retrieval, `alert`, `console.error`) are recorded in
an effect trace, and what the outside world answers is a parameter.

`String.prototype.toLowerCase` depends on the Unicode case tables and is a parameter
of `filteredTemplates`; the theorems that need it assume only that it maps the empty
string to the empty string.  Two instances evaluate examples: `asciiToLowerCase`, and
`sigmaToLowerCase`, which also lower-cases the Greek capital sigma by position.
-/

namespace PromptEnhancer

/-! ## ECMAScript string built-ins -/

/-- Does the first character list start the second one. -/
def startsWithChars : List Char → List Char → Bool
  | [], _ => true
  | _ :: _, [] => false
  | a :: as, b :: bs => a == b && startsWithChars as bs

/-- Search of `sub` in a character list, position by position from the left. -/
def includesChars (sub : List Char) : List Char → Bool
  | [] => sub.isEmpty
  | c :: cs => startsWithChars sub (c :: cs) || includesChars sub cs

/-- Source built-in `String.prototype.includes(searchString)`: `s.includes(sub)`. -/
def includes (s sub : String) : Bool :=
  includesChars sub.data s.data

/-- An ASCII instance of `String.prototype.toLowerCase`: it agrees with the
built-in on every string made of ASCII characters.  The development takes
`toLowerCase` as a parameter; this instance is used to evaluate examples. -/
def asciiToLowerCase (s : String) : String :=
  ⟨s.data.map Char.toLower⟩

/-! ## Data model -/

/-- Identifier of a template: the fallback list uses numbers, a store may use strings. -/
inductive TemplateId where
  | num (n : Nat)
  | str (s : String)
  deriving DecidableEq, Repr

/-- A template object as read by the gallery and the remix bridge.  `tags`,
`modelConfig` and `previewImage` may be missing (`undefined`). -/
structure Template where
  _id : TemplateId
  title : String
  category : String
  promptContent : String
  tags : Option (List String) := none
  modelConfig : Option String := none
  previewImage : Option String := none
  deriving DecidableEq, Repr

/-! ## `filteredTemplates` (TemplatesGallery.js, lines 254-261) -/

/-- Truthiness of a JavaScript value that is a boolean or `undefined` (`none`). -/
def truthy : Option Bool → Bool
  | some b => b
  | none => false

/-- Source: `activeCategory === "all" || t.category === activeCategory`. -/
def matchesCategory (activeCategory : String) (t : Template) : Bool :=
  activeCategory == "all" || t.category == activeCategory

/-- Source: `t.title.toLowerCase().includes(search.toLowerCase()) ||
t.tags?.some(tag => tag.toLowerCase().includes(search.toLowerCase()))`.
The value is `undefined` (`none`) when the title does not match and `tags` is missing. -/
def matchesSearch (toLowerCase : String → String) (search : String) (t : Template) :
    Option Bool :=
  if includes (toLowerCase t.title) (toLowerCase search) then some true
  else t.tags.map fun tags =>
    tags.any fun tag => includes (toLowerCase tag) (toLowerCase search)

/-- The callback of `templates.filter`: the value of `matchesCategory && matchesSearch`. -/
def filterCallback (toLowerCase : String → String) (activeCategory search : String)
    (t : Template) : Option Bool :=
  if matchesCategory activeCategory t then matchesSearch toLowerCase search t
  else some false

/-- Source: `filteredTemplates`, the visible templates. -/
def filteredTemplates (toLowerCase : String → String) (templates : List Template)
    (activeCategory search : String) : List Template :=
  templates.filter fun t => truthy (filterCallback toLowerCase activeCategory search t)

/-- The visibility condition in the words of the specification: the category is
`"all"` or the template's, and the search string is empty, or contained in the
lower-cased title, or contained in some lower-cased tag. -/
def VisibleSpec (toLowerCase : String → String) (activeCategory search : String)
    (t : Template) : Prop :=
  (activeCategory = "all" ∨ t.category = activeCategory) ∧
  (search = "" ∨ (toLowerCase search).data <:+: (toLowerCase t.title).data ∨
    ∃ tag ∈ t.tags.getD [], (toLowerCase search).data <:+: (toLowerCase tag).data)

instance (toLowerCase : String → String) (activeCategory search : String) (t : Template) :
    Decidable (VisibleSpec toLowerCase activeCategory search t) := by
  unfold VisibleSpec; infer_instance

/-! ## Exceptions, state and effects -/

/-- The fields the creation form collects (`formData`); `tags` is the raw text. -/
structure TemplateDraft where
  title : String
  category : String
  promptContent : String
  tags : String
  deriving DecidableEq, Repr

/-- The JSON body of `POST /api/templates`: the draft with `tags` replaced by an array. -/
structure CreateBody where
  title : String
  category : String
  promptContent : String
  tags : List String
  deriving DecidableEq, Repr

/-- Calls that leave the component. -/
inductive Effect where
  | getToken
  | httpGet (url : String)
  | httpPost (url : String) (body : CreateBody) (authorization : String)
  | alert (message : String)
  | consoleError (message : String)
  deriving DecidableEq, Repr

/-- React state of `TemplatesGallery`, with the initial values of the `useState` calls. -/
structure GalleryState where
  activeCategory : String := "all"
  search : String := ""
  templates : List Template := []
  loading : Bool := true
  isModalOpen : Bool := false
  creating : Bool := false
  deriving DecidableEq, Repr

/-- What the collaborators answer: `.error` is a rejected promise.  `getToken`
may resolve to `null` (`none`). -/
structure World where
  getToken : Except String (Option String)
  axiosGet : String → Except String (List Template)
  axiosPost : String → CreateBody → String → Except String Unit

/-- How a block of statements completes. -/
inductive Completion (α : Type) where
  | normal (value : α)
  | throw (err : String)
  deriving DecidableEq, Repr

/-- Result of running a block: completion, state reached, effects performed in order. -/
structure Run (α : Type) where
  completion : Completion α
  state : GalleryState
  effects : List Effect
  deriving DecidableEq, Repr

/-- A block of statements of the gallery component. -/
def Action (α : Type) : Type :=
  GalleryState → Run α

/-- The empty block. -/
def Action.pure {α : Type} (a : α) : Action α :=
  fun s => ⟨.normal a, s, []⟩

/-- Sequencing: a throw skips the rest. -/
def Action.bind {α β : Type} (x : Action α) (f : α → Action β) : Action β :=
  fun s =>
    match x s with
    | ⟨.normal a, s1, e1⟩ =>
      let r := f a s1
      ⟨r.completion, r.state, e1 ++ r.effects⟩
    | ⟨.throw err, s1, e1⟩ => ⟨.throw err, s1, e1⟩

instance : Monad Action where
  pure := Action.pure
  bind := Action.bind

/-- Source: `try { body } catch (err) { handler }`. -/
def tryCatch {α : Type} (body : Action α) (handler : String → Action α) : Action α :=
  fun s =>
    match body s with
    | ⟨.normal a, s1, e1⟩ => ⟨.normal a, s1, e1⟩
    | ⟨.throw err, s1, e1⟩ =>
      let r := handler err s1
      ⟨r.completion, r.state, e1 ++ r.effects⟩

/-- Source: `try { body } finally { finalizer }`: the finalizer always runs, and the
completion of the body is kept unless the finalizer throws. -/
def tryFinally {α : Type} (body : Action α) (finalizer : Action Unit) : Action α :=
  fun s =>
    let r := body s
    let f := finalizer r.state
    match f.completion with
    | .normal _ => ⟨r.completion, f.state, r.effects ++ f.effects⟩
    | .throw err => ⟨.throw err, f.state, r.effects ++ f.effects⟩

/-- A call of an async function whose promise is not awaited: its state changes and
effects happen, its completion is dropped.  The state field is the one reached once
the promise has settled; the setters involved write different fields, so the order
in which they run does not matter. -/
def notAwaited {α : Type} (x : Action α) : Action Unit :=
  fun s =>
    let r := x s
    ⟨.normal (), r.state, r.effects⟩

/-- An awaited call to a collaborator: the call is recorded, a rejection is thrown. -/
def await {α : Type} (call : Effect) (answer : Except String α) : Action α :=
  fun s =>
    match answer with
    | .ok a => ⟨.normal a, s, [call]⟩
    | .error err => ⟨.throw err, s, [call]⟩

/-- A synchronous call that returns nothing (`alert`, `console.error`). -/
def perform (call : Effect) : Action Unit :=
  fun s => ⟨.normal (), s, [call]⟩

def setTemplates (v : List Template) : Action Unit :=
  fun s => ⟨.normal (), { s with templates := v }, []⟩

def setLoading (v : Bool) : Action Unit :=
  fun s => ⟨.normal (), { s with loading := v }, []⟩

def setIsModalOpen (v : Bool) : Action Unit :=
  fun s => ⟨.normal (), { s with isModalOpen := v }, []⟩

def setCreating (v : Bool) : Action Unit :=
  fun s => ⟨.normal (), { s with creating := v }, []⟩

/-! ## `split(",")` and `trim()` -/

/-- Pieces of a character list between occurrences of `sep`; there is always at
least one piece, and the pieces are in order. -/
def splitChars (sep : Char) : List Char → List (List Char)
  | [] => [[]]
  | c :: cs =>
    if c = sep then [] :: splitChars sep cs
    else
      match splitChars sep cs with
      | [] => [[c]]
      | piece :: rest => (c :: piece) :: rest

/-- Source built-in `String.prototype.split(sep)` for a separator of one character. -/
def split (s : String) (sep : Char) : List String :=
  (splitChars sep s.data).map String.mk

/-- The code points `trim` removes: ECMAScript WhiteSpace (TAB, VT, FF, ZWNBSP and the
Unicode space separators) and LineTerminator (LF, CR, LS, PS). -/
def isTrimChar (c : Char) : Bool :=
  c.toNat ∈ [0x9, 0xA, 0xB, 0xC, 0xD, 0x20, 0xA0, 0x1680, 0x2000, 0x2001, 0x2002, 0x2003,
    0x2004, 0x2005, 0x2006, 0x2007, 0x2008, 0x2009, 0x200A, 0x2028, 0x2029, 0x202F,
    0x205F, 0x3000, 0xFEFF]

/-- Source built-in `String.prototype.trim()`: leading and trailing white space removed. -/
def trim (s : String) : String :=
  ⟨((s.data.dropWhile isTrimChar).reverse.dropWhile isTrimChar).reverse⟩

/-! ## `fetchTemplates` (TemplatesGallery.js, lines 214-231) -/

/-- The literal list of the `catch` branch of `fetchTemplates`. -/
def mockData : List Template :=
  [ { _id := .num 1, title := "Cyberpunk City", category := "image",
      promptContent := "A futuristic city with neon lights, rain, and flying cars, cinematic lighting --v 6.0",
      tags := some ["scifi", "neon"], modelConfig := some "midjourney",
      previewImage := some "https://images.unsplash.com/photo-1605806616949-1e87b487bc2a?q=80&w=1000&auto=format&fit=crop" },
    { _id := .num 2, title := "React Component Generator", category := "code",
      promptContent := "Act as a Senior React Developer. Build a responsive Navbar component...",
      tags := some ["react", "frontend"] },
    { _id := .num 3, title := "SEO Blog Post", category := "writing",
      promptContent := "Write a 1500 word blog post about AI trends optimized for SEO...",
      tags := some ["marketing", "seo"] },
    { _id := .num 4, title := "Portrait Photography", category := "image",
      promptContent := "Portrait of an old man, highly detailed, 85mm lens...",
      tags := some ["photo", "realism"],
      previewImage := some "https://images.unsplash.com/photo-1544005313-94ddf0286df2?q=80&w=1000&auto=format&fit=crop" },
    { _id := .num 5, title := "Python API Route", category := "code",
      promptContent := "Create a FastAPI endpoint that accepts JSON...",
      tags := some ["python", "backend"] } ]

/-- Source: `fetchTemplates`. -/
def fetchTemplates (w : World) : Action Unit :=
  tryFinally
    (tryCatch
      (do
        let data ← await (.httpGet "/api/templates") (w.axiosGet "/api/templates")
        setTemplates data)
      (fun _ => do
        perform (.consoleError "Failed to load templates")
        setTemplates mockData))
    (setLoading false)

/-! ## `handleCreate` (TemplatesGallery.js, lines 233-251) -/

/-- Text of a token inside a template literal: `null` prints as `null`. -/
def tokenText : Option String → String
  | some token => token
  | none => "null"

/-- Source: the object literal passed to `axios.post`: the draft spread, then `tags`
replaced by `data.tags.split(",").map(t => t.trim())`. -/
def createBody (data : TemplateDraft) : CreateBody :=
  { title := data.title, category := data.category, promptContent := data.promptContent,
    tags := (split data.tags ',').map trim }

/-- Source: `handleCreate`. -/
def handleCreate (w : World) (data : TemplateDraft) : Action Unit :=
  if data.title = "" ∨ data.promptContent = "" then pure ()
  else do
    setCreating true
    tryFinally
      (tryCatch
        (do
          let token ← await .getToken w.getToken
          let authorization := "Bearer " ++ tokenText token
          await (.httpPost "/api/templates" (createBody data) authorization)
            (w.axiosPost "/api/templates" (createBody data) authorization)
          setIsModalOpen false
          notAwaited (fetchTemplates w))
        (fun _ => perform (.alert "Failed to create template")))
      (setCreating false)

/-! ## `handleRemix` (App.js, lines 25-41) -/

/-- React state of `App`, with the initial values of the `useState` calls. -/
structure AppState where
  currentView : String := "home"
  imagePrompt : String := ""
  imageModel : String := "midjourney"
  isHistoryOpen : Bool := false
  deriving DecidableEq, Repr

/-- Source: `value || fallback` for an optional string: a missing value and the
empty string are falsy. -/
def orElse (value : Option String) (fallback : String) : String :=
  match value with
  | some v => if v = "" then fallback else v
  | none => fallback

/-- Source: `handleRemix`.  The second component lists the messages passed to `alert`. -/
def handleRemix (template : Template) (s : AppState) : AppState × List String :=
  if template.category = "image" then
    ({ s with
        imagePrompt := template.promptContent,
        imageModel := orElse template.modelConfig "midjourney",
        currentView := "image" }, [])
  else
    (s, ["Text/Code Enhancer coming soon! (Check 'Chat' tab)"])

/-! ## Example inputs -/

/-- A code template titled `a`. -/
def codeTemplate : Template :=
  { _id := .num 7, title := "a", category := "code", promptContent := "P" }

/-- The image template of the specification's remix example. -/
def sdxlTemplate : Template :=
  { _id := .num 8, title := "T", category := "image", promptContent := "P",
    modelConfig := some "sdxl" }

/-- An image template whose `modelConfig` is present and is the empty string. -/
def emptyModelTemplate : Template :=
  { _id := .num 9, title := "T", category := "image", promptContent := "P",
    modelConfig := some "" }

/-! ## The submitted tags, in the words of the specification -/

/-- In the words of the specification: `pieces` is the text `s` split on commas:
no piece holds a comma, and the pieces joined by commas give `s` back. -/
def IsCommaSplit (s : String) (pieces : List String) : Prop :=
  pieces ≠ [] ∧ (∀ p ∈ pieces, ',' ∉ p.data) ∧
    List.intercalate [','] (pieces.map String.data) = s.data

/-- In the words of the specification: `x` is `p` with the surrounding white space
trimmed: `p` is `x` between two runs of white space, and `x` neither starts nor
ends with white space. -/
def IsTrimOf (p x : String) : Prop :=
  ∃ l r : List Char, p.data = l ++ x.data ++ r ∧
    (∀ c ∈ l, isTrimChar c = true) ∧ (∀ c ∈ r, isTrimChar c = true) ∧
    (∀ c, x.data.head? = some c → isTrimChar c = false) ∧
    (∀ c, x.data.getLast? = some c → isTrimChar c = false)

/-! ## Example worlds and drafts -/

/-- A world in which every collaborator fails. -/
def offlineWorld : World :=
  { getToken := .error "no session",
    axiosGet := fun _ => .error "Network Error",
    axiosPost := fun _ _ _ => .error "Network Error" }

/-- A world in which the token is issued and the store accepts and lists nothing. -/
def onlineWorld : World :=
  { getToken := .ok (some "tok"),
    axiosGet := fun _ => .ok [],
    axiosPost := fun _ _ _ => .ok () }

/-- The draft of the specification's tag example. -/
def exampleDraft : TemplateDraft :=
  { title := "T", category := "image", promptContent := "P", tags := "a, b ,c" }

/-- A draft with an empty title. -/
def untitledDraft : TemplateDraft :=
  { title := "", category := "image", promptContent := "anything", tags := "" }

/-! ## Lower-casing of the Greek capital sigma -/

/-- Greek capital letter sigma, U+03A3. -/
def capitalSigma : Char :=
  Char.ofNat 0x3A3

/-- Greek small letter sigma, U+03C3. -/
def smallSigma : Char :=
  Char.ofNat 0x3C3

/-- Greek small letter final sigma, U+03C2. -/
def finalSigma : Char :=
  Char.ofNat 0x3C2

/-- The cased letters among ASCII characters and the three sigmas. -/
def isCasedChar (c : Char) : Bool :=
  c.isAlpha || c == capitalSigma || c == smallSigma || c == finalSigma

/-- Lower-casing of a character list, `prev` being the character before it.  A capital
sigma becomes the final sigma when a cased letter stands right before it and no cased
letter right after it (the `Final_Sigma` condition of Unicode SpecialCasing, which
`String.prototype.toLowerCase` applies), and the small sigma otherwise. -/
def sigmaLowerChars (prev : Option Char) : List Char → List Char
  | [] => []
  | c :: cs =>
    (if c = capitalSigma then
      if prev.any isCasedChar && !(cs.head?.any isCasedChar) then finalSigma
      else smallSigma
    else c.toLower) :: sigmaLowerChars (some c) cs

/-- An instance of `String.prototype.toLowerCase` that agrees with the built-in on
every string made of ASCII letters, digits, spaces and the three sigmas (no character
of such a string is case-ignorable, so `Final_Sigma` looks at the neighbours only). -/
def sigmaToLowerCase (s : String) : String :=
  ⟨sigmaLowerChars none s.data⟩

/-- The search text made of the capital sigma alone. -/
def sigmaSearch : String :=
  ⟨[capitalSigma]⟩

/-- The search text `A` followed by the capital sigma. -/
def aSigmaSearch : String :=
  ⟨['A', capitalSigma]⟩

/-- A template whose title is `a` followed by the final sigma, without tags. -/
def finalSigmaTemplate : Template :=
  { _id := .num 10, title := ⟨['a', finalSigma]⟩, category := "writing",
    promptContent := "P" }

/-- A template whose title is `A` followed by the capital sigma, without tags. -/
def capitalSigmaTemplate : Template :=
  { _id := .num 11, title := ⟨['A', capitalSigma]⟩, category := "writing",
    promptContent := "P" }

/-! ## Lemmas on the string built-ins -/

theorem startsWithChars_iff (p s : List Char) : startsWithChars p s = true ↔ p <+: s := by
  induction p generalizing s with
  | nil => simp [startsWithChars]
  | cons a as ih =>
    cases s with
    | nil => simp [startsWithChars]
    | cons b bs => simp [startsWithChars, ih, List.cons_prefix_cons]

theorem includesChars_iff (sub s : List Char) : includesChars sub s = true ↔ sub <:+: s := by
  induction s with
  | nil => simp [includesChars, List.isEmpty_iff]
  | cons c cs ih =>
    simp only [includesChars, Bool.or_eq_true, startsWithChars_iff, ih]
    rw [List.infix_cons_iff]

theorem includes_iff (s sub : String) : includes s sub = true ↔ sub.data <:+: s.data :=
  includesChars_iff _ _

theorem includes_empty (s : String) : includes s "" = true := by
  rw [includes_iff]; exact ⟨[], s.data, by simp⟩

/-! ## The visible templates -/

/-- What the filter callback computes, as a proposition. -/
theorem truthy_filterCallback_iff (toLowerCase : String → String)
    (activeCategory search : String) (t : Template) :
    truthy (filterCallback toLowerCase activeCategory search t) = true ↔
      (activeCategory = "all" ∨ t.category = activeCategory) ∧
      ((toLowerCase search).data <:+: (toLowerCase t.title).data ∨
        ∃ tag ∈ t.tags.getD [], (toLowerCase search).data <:+: (toLowerCase tag).data) := by
  unfold filterCallback matchesSearch matchesCategory
  by_cases hc : activeCategory = "all" ∨ t.category = activeCategory
  · by_cases ht : includes (toLowerCase t.title) (toLowerCase search) = true
    · have ht2 := (includes_iff _ _).1 ht
      simp [hc, ht, ht2, truthy]
    · have ht2 : ¬ (toLowerCase search).data <:+: (toLowerCase t.title).data :=
        fun h => ht ((includes_iff _ _).2 h)
      cases htags : t.tags with
      | none => simp [hc, ht, ht2, truthy]
      | some tags => simp [hc, ht, ht2, truthy, includes_iff]
  · have hc2 : ¬ ((activeCategory == "all" || t.category == activeCategory) = true) := by
      simpa using hc
    simp [hc, hc2, truthy]

theorem mem_filteredTemplates_iff (toLowerCase : String → String)
    (templates : List Template) (activeCategory search : String) (t : Template) :
    t ∈ filteredTemplates toLowerCase templates activeCategory search ↔
      t ∈ templates ∧ (activeCategory = "all" ∨ t.category = activeCategory) ∧
      ((toLowerCase search).data <:+: (toLowerCase t.title).data ∨
        ∃ tag ∈ t.tags.getD [], (toLowerCase search).data <:+: (toLowerCase tag).data) := by
  unfold filteredTemplates
  rw [List.mem_filter, truthy_filterCallback_iff]

theorem visibleSpec_iff (toLowerCase : String → String) (hlow : toLowerCase "" = "")
    (activeCategory search : String) (t : Template) :
    VisibleSpec toLowerCase activeCategory search t ↔
      truthy (filterCallback toLowerCase activeCategory search t) = true := by
  rw [truthy_filterCallback_iff]
  unfold VisibleSpec
  constructor
  · rintro ⟨hc, hs | hs | hs⟩
    · subst hs
      exact ⟨hc, Or.inl (by rw [hlow]; exact ⟨[], (toLowerCase t.title).data, by simp⟩)⟩
    · exact ⟨hc, Or.inl hs⟩
    · exact ⟨hc, Or.inr hs⟩
  · rintro ⟨hc, hs⟩
    exact ⟨hc, Or.inr hs⟩

/-- C1: the visible templates are the templates, in source order, that satisfy the
visibility condition of the specification (category is "all" or the template's, and
the search is empty or contained, lower-cased, in the lower-cased title or in some
lower-cased tag): the list is the filter of the template list by that condition, a
sub-sequence of it, with exactly those members. -/
theorem filteredTemplates_eq_filter_visibleSpec (toLowerCase : String → String)
    (hlow : toLowerCase "" = "") (templates : List Template)
    (activeCategory search : String) :
    filteredTemplates toLowerCase templates activeCategory search =
        templates.filter (fun t => decide (VisibleSpec toLowerCase activeCategory search t)) ∧
      List.Sublist (filteredTemplates toLowerCase templates activeCategory search) templates ∧
      ∀ t, t ∈ filteredTemplates toLowerCase templates activeCategory search ↔
        t ∈ templates ∧ VisibleSpec toLowerCase activeCategory search t := by
  have heq : filteredTemplates toLowerCase templates activeCategory search =
      templates.filter (fun t => decide (VisibleSpec toLowerCase activeCategory search t)) := by
    unfold filteredTemplates
    apply List.filter_congr
    intro t _
    by_cases h : VisibleSpec toLowerCase activeCategory search t
    · simp [h, (visibleSpec_iff toLowerCase hlow activeCategory search t).1 h]
    · have h2 : ¬ truthy (filterCallback toLowerCase activeCategory search t) = true :=
        fun hh => h ((visibleSpec_iff toLowerCase hlow activeCategory search t).2 hh)
      simp [h, h2]
  refine ⟨heq, ?_, ?_⟩
  · unfold filteredTemplates
    exact List.filter_sublist _
  · intro t
    rw [heq, List.mem_filter]
    simp

theorem filteredTemplates_eq_filter_visibleSpec_witness :
    asciiToLowerCase "" = "" ∧
      filteredTemplates asciiToLowerCase mockData "code" "REACT" =
        mockData.filter (fun t => decide (VisibleSpec asciiToLowerCase "code" "REACT" t)) :=
  ⟨by decide,
    (filteredTemplates_eq_filter_visibleSpec asciiToLowerCase (by decide) mockData
      "code" "REACT").1⟩

/-! ## The remix bridge -/

/-- C2, as stated, fails: for an image template whose `modelConfig` is present and is
the empty string the shared model becomes the default, not the template's value. -/
theorem handleRemix_empty_modelConfig :
    emptyModelTemplate.category = "image" ∧ emptyModelTemplate.modelConfig = some "" ∧
      (handleRemix emptyModelTemplate {}).1.imageModel = "midjourney" ∧
      ¬ (∀ (t : Template) (s : AppState) (m : String), t.category = "image" →
          t.modelConfig = some m → (handleRemix t s).1.imageModel = m) := by
  refine ⟨by decide, by decide, by decide, ?_⟩
  intro h
  have h1 := h emptyModelTemplate {} "" (by decide) (by decide)
  revert h1
  decide

/-- C2, amended: for an image template and any prior state, remix sets the shared
prompt to the template's `promptContent`, the shared model to the template's
`modelConfig` when it is present and not empty and to "midjourney" when it is absent
or empty, sets the active view to "image", and raises no notice; the template
of the example yields prompt "P", model "sdxl", view "image". -/
theorem handleRemix_image (t : Template) (s : AppState) (hcat : t.category = "image") :
    (handleRemix t s).1.imagePrompt = t.promptContent ∧
      (∀ m, t.modelConfig = some m → m ≠ "" → (handleRemix t s).1.imageModel = m) ∧
      (t.modelConfig = none ∨ t.modelConfig = some "" →
        (handleRemix t s).1.imageModel = "midjourney") ∧
      (handleRemix t s).1.currentView = "image" ∧
      (handleRemix t s).1.isHistoryOpen = s.isHistoryOpen ∧
      (handleRemix t s).2 = [] ∧
      (handleRemix sdxlTemplate s).1 =
        { s with imagePrompt := "P", imageModel := "sdxl", currentView := "image" } := by
  refine ⟨?_, ?_, ?_, ?_, ?_, ?_, ?_⟩
  · simp [handleRemix, hcat]
  · intro m hm hne
    simp [handleRemix, hcat, hm, orElse, hne]
  · rintro (hm | hm) <;> simp [handleRemix, hcat, hm, orElse]
  · simp [handleRemix, hcat]
  · simp [handleRemix, hcat]
  · simp [handleRemix, hcat]
  · simp [handleRemix, sdxlTemplate, orElse]

theorem handleRemix_image_witness :
    sdxlTemplate.category = "image" ∧
      (handleRemix sdxlTemplate {}).1.imagePrompt = sdxlTemplate.promptContent ∧
      (handleRemix sdxlTemplate {}).1.currentView = "image" :=
  ⟨by decide, (handleRemix_image sdxlTemplate {} (by decide)).1,
    (handleRemix_image sdxlTemplate {} (by decide)).2.2.2.1⟩

/-- C3: for a template whose category is not "image" and any prior state, remix
leaves the state (shared prompt, shared model, active view) unchanged and raises
exactly one notice through `alert`. -/
theorem handleRemix_not_image (t : Template) (s : AppState) (hcat : t.category ≠ "image") :
    (handleRemix t s).1 = s ∧
      (handleRemix t s).1.imagePrompt = s.imagePrompt ∧
      (handleRemix t s).1.imageModel = s.imageModel ∧
      (handleRemix t s).1.currentView = s.currentView ∧
      (handleRemix t s).2 = ["Text/Code Enhancer coming soon! (Check 'Chat' tab)"] := by
  simp [handleRemix, hcat]

theorem handleRemix_not_image_witness :
    codeTemplate.category ≠ "image" ∧ (handleRemix codeTemplate {}).1 = {} :=
  ⟨by decide, (handleRemix_not_image codeTemplate {} (by decide)).1⟩

/-! ## Runs of `fetchTemplates` and `handleCreate` -/

theorem fetchTemplates_of_error (w : World) (s : GalleryState) (e : String)
    (hget : w.axiosGet "/api/templates" = .error e) :
    fetchTemplates w s =
      ⟨.normal (), { s with templates := mockData, loading := false },
        [.httpGet "/api/templates", .consoleError "Failed to load templates"]⟩ := by
  simp [fetchTemplates, tryFinally, tryCatch, await, perform, setTemplates, setLoading,
    bind, Action.bind, hget]

theorem fetchTemplates_of_ok (w : World) (s : GalleryState) (data : List Template)
    (hget : w.axiosGet "/api/templates" = .ok data) :
    fetchTemplates w s =
      ⟨.normal (), { s with templates := data, loading := false },
        [.httpGet "/api/templates"]⟩ := by
  simp [fetchTemplates, tryFinally, tryCatch, await, perform, setTemplates, setLoading,
    bind, Action.bind, hget]

theorem handleCreate_of_invalid (w : World) (data : TemplateDraft) (s : GalleryState)
    (hinv : data.title = "" ∨ data.promptContent = "") :
    handleCreate w data s = ⟨.normal (), s, []⟩ := by
  simp [handleCreate, hinv, pure, Action.pure]

theorem handleCreate_of_getToken_error (w : World) (data : TemplateDraft) (s : GalleryState)
    (e : String) (htitle : data.title ≠ "") (hcontent : data.promptContent ≠ "")
    (htok : w.getToken = .error e) :
    handleCreate w data s =
      ⟨.normal (), { s with creating := false },
        [.getToken, .alert "Failed to create template"]⟩ := by
  simp [handleCreate, htitle, hcontent, tryFinally, tryCatch, await, perform, setCreating,
    bind, Action.bind, htok]

theorem handleCreate_of_post_error (w : World) (data : TemplateDraft) (s : GalleryState)
    (token : Option String) (e : String)
    (htitle : data.title ≠ "") (hcontent : data.promptContent ≠ "")
    (htok : w.getToken = .ok token)
    (hpost : w.axiosPost "/api/templates" (createBody data) ("Bearer " ++ tokenText token) =
      .error e) :
    handleCreate w data s =
      ⟨.normal (), { s with creating := false },
        [.getToken, .httpPost "/api/templates" (createBody data) ("Bearer " ++ tokenText token),
          .alert "Failed to create template"]⟩ := by
  simp [handleCreate, htitle, hcontent, tryFinally, tryCatch, await, perform, setCreating,
    bind, Action.bind, htok, hpost]

theorem handleCreate_of_post_ok (w : World) (data : TemplateDraft) (s : GalleryState)
    (token : Option String)
    (htitle : data.title ≠ "") (hcontent : data.promptContent ≠ "")
    (htok : w.getToken = .ok token)
    (hpost : w.axiosPost "/api/templates" (createBody data) ("Bearer " ++ tokenText token) =
      .ok ()) :
    handleCreate w data s =
      ⟨.normal (),
        { (fetchTemplates w { s with creating := true, isModalOpen := false }).state with
          creating := false },
        [.getToken, .httpPost "/api/templates" (createBody data) ("Bearer " ++ tokenText token)]
          ++ (fetchTemplates w { s with creating := true, isModalOpen := false }).effects⟩ := by
  simp [handleCreate, htitle, hcontent, tryFinally, tryCatch, await, perform, setCreating,
    setIsModalOpen, notAwaited, bind, Action.bind, htok, hpost]

/-- Every POST recorded by `handleCreate` carries `createBody data`, whatever the
collaborators answer. -/
theorem httpPost_mem_handleCreate (w : World) (data : TemplateDraft) (s : GalleryState)
    (url : String) (body : CreateBody) (authorization : String)
    (hmem : Effect.httpPost url body authorization ∈ (handleCreate w data s).effects) :
    body = createBody data := by
  by_cases hinv : data.title = "" ∨ data.promptContent = ""
  · rw [handleCreate_of_invalid w data s hinv] at hmem
    simp at hmem
  · have htitle : data.title ≠ "" := fun h => hinv (Or.inl h)
    have hcontent : data.promptContent ≠ "" := fun h => hinv (Or.inr h)
    cases htok : w.getToken with
    | error e =>
      rw [handleCreate_of_getToken_error w data s e htitle hcontent htok] at hmem
      simp at hmem
    | ok token =>
      cases hpost : w.axiosPost "/api/templates" (createBody data)
          ("Bearer " ++ tokenText token) with
      | error e =>
        rw [handleCreate_of_post_error w data s token e htitle hcontent htok hpost] at hmem
        simp at hmem
        exact hmem.2.1
      | ok u =>
        rw [handleCreate_of_post_ok w data s token htitle hcontent htok hpost] at hmem
        cases hget : w.axiosGet "/api/templates" with
        | error e2 =>
          rw [fetchTemplates_of_error w _ e2 hget] at hmem
          simp at hmem
          exact hmem.2.1
        | ok l =>
          rw [fetchTemplates_of_ok w _ l hget] at hmem
          simp at hmem
          exact hmem.2.1

/-- When the token is obtained, `handleCreate` on a valid draft does record a POST. -/
theorem httpPost_mem_handleCreate_of_token (w : World) (data : TemplateDraft)
    (s : GalleryState) (token : Option String)
    (htitle : data.title ≠ "") (hcontent : data.promptContent ≠ "")
    (htok : w.getToken = .ok token) :
    Effect.httpPost "/api/templates" (createBody data) ("Bearer " ++ tokenText token) ∈
      (handleCreate w data s).effects := by
  cases hpost : w.axiosPost "/api/templates" (createBody data)
      ("Bearer " ++ tokenText token) with
  | error e =>
    rw [handleCreate_of_post_error w data s token e htitle hcontent htok hpost]
    simp
  | ok u =>
    rw [handleCreate_of_post_ok w data s token htitle hcontent htok hpost]
    simp

/-! ## What `split` and `trim` compute -/

theorem splitChars_ne_nil (sep : Char) (l : List Char) : splitChars sep l ≠ [] := by
  cases l with
  | nil => simp [splitChars]
  | cons c cs =>
    unfold splitChars
    split
    · simp
    · split <;> simp

theorem splitChars_length (sep : Char) (l : List Char) :
    (splitChars sep l).length = l.count sep + 1 := by
  induction l with
  | nil => simp [splitChars]
  | cons c cs ih =>
    unfold splitChars
    by_cases hc : c = sep
    · simp [hc, ih]
    · have hc2 : ¬ (c == sep) = true := by simpa using hc
      cases hs : splitChars sep cs with
      | nil => exact absurd hs (splitChars_ne_nil sep cs)
      | cons q qs =>
        rw [hs] at ih
        simp [hc, List.count_cons, hc2] at ih ⊢
        omega

theorem splitChars_not_mem (sep : Char) (l : List Char) :
    ∀ p ∈ splitChars sep l, sep ∉ p := by
  induction l with
  | nil => simp [splitChars]
  | cons c cs ih =>
    unfold splitChars
    by_cases hc : c = sep
    · simp only [hc, if_true]
      intro p hp
      rcases List.mem_cons.1 hp with h | h
      · simp [h]
      · exact ih p h
    · simp only [hc, if_false]
      cases hs : splitChars sep cs with
      | nil => exact absurd hs (splitChars_ne_nil sep cs)
      | cons q qs =>
        rw [hs] at ih
        intro p hp
        rcases List.mem_cons.1 hp with h | h
        · subst h
          have hq := ih q (List.mem_cons_self _ _)
          simp only [List.mem_cons, not_or]
          exact ⟨fun h => hc h.symm, hq⟩
        · exact ih p (List.mem_cons_of_mem _ h)

theorem intercalate_cons_cons (sep p q : List Char) (qs : List (List Char)) :
    List.intercalate sep (p :: q :: qs) = p ++ sep ++ List.intercalate sep (q :: qs) := by
  simp [List.intercalate]

theorem splitChars_intercalate (sep : Char) (l : List Char) :
    List.intercalate [sep] (splitChars sep l) = l := by
  induction l with
  | nil => simp [splitChars, List.intercalate]
  | cons c cs ih =>
    unfold splitChars
    cases hs : splitChars sep cs with
    | nil => exact absurd hs (splitChars_ne_nil sep cs)
    | cons q qs =>
      rw [hs] at ih
      by_cases hc : c = sep
      · simp only [hc, if_true]
        rw [intercalate_cons_cons, ih]
        simp
      · simp only [hc, if_false]
        cases qs with
        | nil =>
          simp [List.intercalate] at ih ⊢
          exact ih
        | cons r rs =>
          rw [intercalate_cons_cons] at ih ⊢
          rw [← ih]
          simp

theorem split_isCommaSplit (s : String) : IsCommaSplit s (split s ',') := by
  refine ⟨?_, ?_, ?_⟩
  · simp [split, splitChars_ne_nil]
  · intro p hp
    simp only [split, List.mem_map] at hp
    obtain ⟨cs, hcs, rfl⟩ := hp
    exact splitChars_not_mem ',' s.data cs hcs
  · have h : (split s ',').map String.data = splitChars ',' s.data := by
      simp [split, Function.comp_def]
    rw [h, splitChars_intercalate]

theorem split_length (s : String) : (split s ',').length = s.data.count ',' + 1 := by
  simp [split, splitChars_length]

theorem trim_isTrimOf (p : String) : IsTrimOf p (trim p) := by
  refine ⟨p.data.takeWhile isTrimChar,
    ((p.data.dropWhile isTrimChar).reverse.takeWhile isTrimChar).reverse, ?_, ?_, ?_, ?_, ?_⟩
  · have h1 := List.takeWhile_append_dropWhile isTrimChar p.data
    have h2 := List.takeWhile_append_dropWhile isTrimChar
      (p.data.dropWhile isTrimChar).reverse
    have h3 := congrArg List.reverse h2
    rw [List.reverse_append, List.reverse_reverse] at h3
    simp only [trim, List.append_assoc]
    rw [h3, h1]
  · intro c hc
    exact List.mem_takeWhile_imp hc
  · intro c hc
    exact List.mem_takeWhile_imp (List.mem_reverse.1 hc)
  · intro c hc
    simp only [trim] at hc
    set m := p.data.dropWhile isTrimChar with hm
    have h2 := List.takeWhile_append_dropWhile isTrimChar m.reverse
    have h3 := congrArg List.reverse h2
    rw [List.reverse_append, List.reverse_reverse] at h3
    have hhead : m.head? = some c := by
      rw [← h3, List.head?_append, hc]
      rfl
    have hnot := List.head?_dropWhile_not isTrimChar p.data
    rw [← hm, hhead] at hnot
    simpa using hnot
  · intro c hc
    simp only [trim, List.getLast?_reverse] at hc
    have hnot := List.head?_dropWhile_not isTrimChar
      (p.data.dropWhile isTrimChar).reverse
    rw [hc] at hnot
    simpa using hnot

theorem createBody_tags_forall₂ (data : TemplateDraft) :
    List.Forall₂ IsTrimOf (split data.tags ',') (createBody data).tags := by
  simp only [createBody]
  rw [List.forall₂_map_right_iff]
  exact List.forall₂_same.2 (fun p _ => trim_isTrimOf p)

/-! ## Creation -/

/-- C4: for a draft whose title or prompt content is empty, `handleCreate` performs
no call at all (no token request, no POST, no GET, no notice), leaves the whole
gallery state, the template list included, unchanged, and completes normally. -/
theorem handleCreate_invalid_no_effect (w : World) (data : TemplateDraft) (s : GalleryState)
    (hinv : data.title = "" ∨ data.promptContent = "") :
    (handleCreate w data s).effects = [] ∧
      (handleCreate w data s).state = s ∧
      (handleCreate w data s).state.templates = s.templates ∧
      (handleCreate w data s).completion = .normal () := by
  rw [handleCreate_of_invalid w data s hinv]
  exact ⟨rfl, rfl, rfl, rfl⟩

theorem handleCreate_invalid_no_effect_witness :
    (untitledDraft.title = "" ∨ untitledDraft.promptContent = "") ∧
      (handleCreate onlineWorld untitledDraft {}).effects = [] ∧
      (handleCreate onlineWorld untitledDraft {}).state = {} :=
  ⟨Or.inl (by decide),
    (handleCreate_invalid_no_effect onlineWorld untitledDraft {} (Or.inl (by decide))).1,
    (handleCreate_invalid_no_effect onlineWorld untitledDraft {} (Or.inl (by decide))).2.1⟩

/-- C5: for a draft with non-empty title and prompt content, every POST that
`handleCreate` makes carries the draft's title, category and prompt content unchanged
and, as tags, the pieces of the draft's tags text split on commas, each trimmed, in
order; once the token is obtained such a POST is made; for the tags text `a, b ,c`
the tags submitted are `a`, `b`, `c`. -/
theorem handleCreate_body (w : World) (data : TemplateDraft) (s : GalleryState)
    (htitle : data.title ≠ "") (hcontent : data.promptContent ≠ "") :
    (∀ url body authorization,
        Effect.httpPost url body authorization ∈ (handleCreate w data s).effects →
        body.title = data.title ∧ body.category = data.category ∧
        body.promptContent = data.promptContent ∧
        body.tags = (split data.tags ',').map trim ∧
        ∃ pieces, IsCommaSplit data.tags pieces ∧ List.Forall₂ IsTrimOf pieces body.tags) ∧
      (∀ token, w.getToken = .ok token →
        ∃ body, Effect.httpPost "/api/templates" body ("Bearer " ++ tokenText token) ∈
          (handleCreate w data s).effects) ∧
      (data.tags = "a, b ,c" → ∀ url body authorization,
        Effect.httpPost url body authorization ∈ (handleCreate w data s).effects →
        body.tags = ["a", "b", "c"]) := by
  refine ⟨?_, ?_, ?_⟩
  · intro url body authorization hmem
    have hb := httpPost_mem_handleCreate w data s url body authorization hmem
    subst hb
    exact ⟨rfl, rfl, rfl, rfl, split data.tags ',', split_isCommaSplit data.tags,
      createBody_tags_forall₂ data⟩
  · intro token htok
    exact ⟨createBody data,
      httpPost_mem_handleCreate_of_token w data s token htitle hcontent htok⟩
  · intro htags url body authorization hmem
    have hb := httpPost_mem_handleCreate w data s url body authorization hmem
    subst hb
    simp only [createBody, htags]
    decide

theorem handleCreate_body_witness :
    exampleDraft.title ≠ "" ∧ exampleDraft.promptContent ≠ "" ∧
      ∃ body, Effect.httpPost "/api/templates" body ("Bearer " ++ tokenText (some "tok")) ∈
        (handleCreate onlineWorld exampleDraft {}).effects :=
  ⟨by decide, by decide,
    (handleCreate_body onlineWorld exampleDraft {} (by decide) (by decide)).2.1
      (some "tok") rfl⟩

/-- C9: for a draft with non-empty title and prompt content, when the token
retrieval fails or the POST fails, `handleCreate` raises the notice "Failed to
create template", leaves `isModalOpen` and the template list as they were (the state
reached is the prior one with `creating` false), issues no GET, and completes
normally. -/
theorem handleCreate_failure (w : World) (data : TemplateDraft) (s : GalleryState)
    (htitle : data.title ≠ "") (hcontent : data.promptContent ≠ "")
    (hfail : (∃ e, w.getToken = .error e) ∨
      ∃ token e, w.getToken = .ok token ∧
        w.axiosPost "/api/templates" (createBody data) ("Bearer " ++ tokenText token) =
          .error e) :
    Effect.alert "Failed to create template" ∈ (handleCreate w data s).effects ∧
      (handleCreate w data s).state.isModalOpen = s.isModalOpen ∧
      (∀ url, Effect.httpGet url ∉ (handleCreate w data s).effects) ∧
      (handleCreate w data s).state.templates = s.templates ∧
      (handleCreate w data s).state.creating = false ∧
      (handleCreate w data s).state = { s with creating := false } ∧
      (handleCreate w data s).completion = .normal () := by
  rcases hfail with ⟨e, htok⟩ | ⟨token, e, htok, hpost⟩
  · rw [handleCreate_of_getToken_error w data s e htitle hcontent htok]
    simp
  · rw [handleCreate_of_post_error w data s token e htitle hcontent htok hpost]
    simp

theorem handleCreate_failure_witness :
    exampleDraft.title ≠ "" ∧ exampleDraft.promptContent ≠ "" ∧
      Effect.alert "Failed to create template" ∈
        (handleCreate offlineWorld exampleDraft {}).effects :=
  ⟨by decide, by decide,
    (handleCreate_failure offlineWorld exampleDraft {} (by decide) (by decide)
      (Or.inl ⟨"no session", rfl⟩)).1⟩

/-- C10: for a draft with non-empty title and prompt content, the tags of every POST
that `handleCreate` makes have one element per comma-separated piece of the tags text
(the number of commas plus one), empty pieces included: the empty tags text is
submitted as the one-element list holding the empty string, and `a,,b` as `a`, the
empty string, `b`; once the token is obtained such a POST is made. -/
theorem handleCreate_keeps_empty_tags (w : World) (data : TemplateDraft) (s : GalleryState)
    (htitle : data.title ≠ "") (hcontent : data.promptContent ≠ "") :
    (∀ url body authorization,
        Effect.httpPost url body authorization ∈ (handleCreate w data s).effects →
        body.tags.length = data.tags.data.count ',' + 1 ∧
        (data.tags = "" → body.tags = [""]) ∧
        (data.tags = "a,,b" → body.tags = ["a", "", "b"])) ∧
      (∀ token, w.getToken = .ok token →
        ∃ body, Effect.httpPost "/api/templates" body ("Bearer " ++ tokenText token) ∈
          (handleCreate w data s).effects) := by
  refine ⟨?_, ?_⟩
  · intro url body authorization hmem
    have hb := httpPost_mem_handleCreate w data s url body authorization hmem
    subst hb
    refine ⟨?_, ?_, ?_⟩
    · simp [createBody, split_length]
    · intro htags
      simp only [createBody, htags]
      decide
    · intro htags
      simp only [createBody, htags]
      decide
  · intro token htok
    exact ⟨createBody data,
      httpPost_mem_handleCreate_of_token w data s token htitle hcontent htok⟩

theorem handleCreate_keeps_empty_tags_witness :
    exampleDraft.title ≠ "" ∧ exampleDraft.promptContent ≠ "" ∧
      Effect.httpPost "/api/templates" (createBody exampleDraft) "Bearer tok" ∈
        (handleCreate onlineWorld exampleDraft {}).effects ∧
      (createBody exampleDraft).tags.length = exampleDraft.tags.data.count ',' + 1 :=
  ⟨by decide, by decide, by decide,
    ((handleCreate_keeps_empty_tags onlineWorld exampleDraft {} (by decide) (by decide)).1
      "/api/templates" (createBody exampleDraft) "Bearer tok" (by decide)).1⟩

/-! ## Loading and searching -/

theorem filteredTemplates_empty_search (toLowerCase : String → String)
    (hlow : toLowerCase "" = "") (templates : List Template) (activeCategory : String) :
    filteredTemplates toLowerCase templates activeCategory "" =
      templates.filter (fun t => matchesCategory activeCategory t) := by
  unfold filteredTemplates
  apply List.filter_congr
  intro t _
  unfold filterCallback matchesSearch
  rw [hlow, includes_empty]
  by_cases h : matchesCategory activeCategory t = true
  · simp [h, truthy]
  · simp [h, truthy]

theorem filteredTemplates_all_empty_search (toLowerCase : String → String)
    (hlow : toLowerCase "" = "") (templates : List Template) :
    filteredTemplates toLowerCase templates "all" "" = templates := by
  rw [filteredTemplates_empty_search toLowerCase hlow]
  simp [matchesCategory]

/-- C6: from any prior gallery state, a load whose GET fails replaces the template
list by the fixed fallback list, completes normally (the failure is not thrown), and
the visible list under the initial filters (category "all", empty search) is the
whole fallback list, which is not empty. -/
theorem fetchTemplates_failure (toLowerCase : String → String) (hlow : toLowerCase "" = "")
    (w : World) (s : GalleryState) (e : String)
    (hget : w.axiosGet "/api/templates" = .error e) :
    (fetchTemplates w s).state.templates = mockData ∧
      (fetchTemplates w s).completion = .normal () ∧
      (fetchTemplates w s).state = { s with templates := mockData, loading := false } ∧
      filteredTemplates toLowerCase (fetchTemplates w s).state.templates "all" "" = mockData ∧
      filteredTemplates toLowerCase (fetchTemplates w s).state.templates "all" "" ≠ [] := by
  rw [fetchTemplates_of_error w s e hget]
  refine ⟨rfl, rfl, rfl, ?_, ?_⟩
  · exact filteredTemplates_all_empty_search toLowerCase hlow mockData
  · rw [filteredTemplates_all_empty_search toLowerCase hlow mockData]
    decide

theorem fetchTemplates_failure_witness :
    asciiToLowerCase "" = "" ∧
      offlineWorld.axiosGet "/api/templates" = .error "Network Error" ∧
      filteredTemplates asciiToLowerCase (fetchTemplates offlineWorld {}).state.templates
        "all" "" ≠ [] :=
  ⟨by decide, rfl,
    (fetchTemplates_failure asciiToLowerCase (by decide) offlineWorld {} "Network Error"
      rfl).2.2.2.2⟩

/-- C7, as stated, fails, in two ways.  First, a template left out by the category
filter can still have the search text in its title: with the one template of category
"code" titled `a`, active category "image" and search `a`, the template is excluded
although its lower-cased title contains the lower-cased search text.  Second, the
filter compares the lower-cased forms, not the texts: with the one template titled `A`
followed by the capital sigma, active category "all" and the capital sigma as
search text, the template passes the category filter and its title contains the search
text as it stands, yet it is excluded, because the lower-cased title is `a` followed by
the final sigma and the lower-cased search text is the small sigma. -/
theorem filteredTemplates_excluded_by_category :
    codeTemplate ∈ [codeTemplate] ∧
      codeTemplate ∉ filteredTemplates asciiToLowerCase [codeTemplate] "image" "a" ∧
      includes (asciiToLowerCase codeTemplate.title) (asciiToLowerCase "a") = true ∧
      ¬ (∀ (toLowerCase : String → String) (templates : List Template)
          (activeCategory search : String) (t : Template), t ∈ templates →
          t ∉ filteredTemplates toLowerCase templates activeCategory search →
          ¬ (toLowerCase search).data <:+: (toLowerCase t.title).data) ∧
      capitalSigmaTemplate ∈ [capitalSigmaTemplate] ∧
      capitalSigmaTemplate ∉
        filteredTemplates sigmaToLowerCase [capitalSigmaTemplate] "all" sigmaSearch ∧
      sigmaSearch.data <:+: capitalSigmaTemplate.title.data ∧
      sigmaToLowerCase capitalSigmaTemplate.title = ⟨['a', finalSigma]⟩ ∧
      sigmaToLowerCase sigmaSearch = ⟨[smallSigma]⟩ ∧
      ¬ (∀ (toLowerCase : String → String) (templates : List Template)
          (activeCategory search : String) (t : Template), t ∈ templates →
          t ∉ filteredTemplates toLowerCase templates activeCategory search →
          (activeCategory = "all" ∨ t.category = activeCategory) →
          ¬ search.data <:+: t.title.data) := by
  have hsub : sigmaSearch.data <:+: capitalSigmaTemplate.title.data :=
    ⟨['A'], [], by decide⟩
  refine ⟨by decide, by decide, by decide, ?_, by decide, by decide, hsub, by decide,
    by decide, ?_⟩
  · intro h
    have h1 := h asciiToLowerCase [codeTemplate] "image" "a" codeTemplate (by decide)
      (by decide)
    apply h1
    rw [← includes_iff]
    decide
  · intro h
    exact h sigmaToLowerCase [capitalSigmaTemplate] "all" sigmaSearch capitalSigmaTemplate
      (by decide) (by decide) (Or.inl rfl) hsub

/-- C7, amended: for all template lists, active categories and search texts, every
visible template has the lower-cased search text inside its lower-cased title or
inside one of its lower-cased tags; every template of the list that passes the
category filter (the active category is "all" or the template's) and is not
visible has the lower-cased search text inside neither its lower-cased title nor any
of its lower-cased tags; so a template of the list that passes the category filter is
visible exactly when the lower-cased search text is inside its lower-cased title or
inside one of its lower-cased tags.  Lower-cased means the result of `toLowerCase`. -/
theorem filteredTemplates_search (toLowerCase : String → String)
    (templates : List Template) (activeCategory search : String) :
    (∀ t ∈ filteredTemplates toLowerCase templates activeCategory search,
        (toLowerCase search).data <:+: (toLowerCase t.title).data ∨
        ∃ tag ∈ t.tags.getD [], (toLowerCase search).data <:+: (toLowerCase tag).data) ∧
      (∀ t ∈ templates, t ∉ filteredTemplates toLowerCase templates activeCategory search →
        (activeCategory = "all" ∨ t.category = activeCategory) →
        ¬ (toLowerCase search).data <:+: (toLowerCase t.title).data ∧
        ¬ ∃ tag ∈ t.tags.getD [], (toLowerCase search).data <:+: (toLowerCase tag).data) ∧
      (∀ t ∈ templates, (activeCategory = "all" ∨ t.category = activeCategory) →
        (t ∈ filteredTemplates toLowerCase templates activeCategory search ↔
          ((toLowerCase search).data <:+: (toLowerCase t.title).data ∨
            ∃ tag ∈ t.tags.getD [],
              (toLowerCase search).data <:+: (toLowerCase tag).data))) := by
  refine ⟨?_, ?_, ?_⟩
  · intro t ht
    exact ((mem_filteredTemplates_iff _ _ _ _ _).1 ht).2.2
  · intro t ht hnot hcat
    rw [mem_filteredTemplates_iff] at hnot
    constructor
    · intro h
      exact hnot ⟨ht, hcat, Or.inl h⟩
    · intro h
      exact hnot ⟨ht, hcat, Or.inr h⟩
  · intro t ht hcat
    rw [mem_filteredTemplates_iff]
    exact ⟨fun h => h.2.2, fun h => ⟨ht, hcat, h⟩⟩

theorem filteredTemplates_search_witness :
    (∀ t ∈ filteredTemplates asciiToLowerCase mockData "all" "NEON",
        (asciiToLowerCase "NEON").data <:+: (asciiToLowerCase t.title).data ∨
        ∃ tag ∈ t.tags.getD [],
          (asciiToLowerCase "NEON").data <:+: (asciiToLowerCase tag).data) ∧
      filteredTemplates asciiToLowerCase mockData "all" "NEON" = mockData.take 1 ∧
      codeTemplate ∈ codeTemplate :: mockData ∧
      codeTemplate ∉ filteredTemplates asciiToLowerCase (codeTemplate :: mockData)
        "all" "NEON" ∧
      ¬ (asciiToLowerCase "NEON").data <:+: (asciiToLowerCase codeTemplate.title).data :=
  ⟨(filteredTemplates_search asciiToLowerCase mockData "all" "NEON").1, by decide,
    by decide, by decide,
    ((filteredTemplates_search asciiToLowerCase (codeTemplate :: mockData) "all" "NEON").2.1
      codeTemplate (by decide) (by decide) (Or.inl rfl)).1⟩

/-- C8: with the empty search text, the visible templates are the whole template
list when the active category is "all" (templates without tags included), and
for any other category `c` exactly the templates whose category is `c`, in order. -/
theorem filteredTemplates_by_category (toLowerCase : String → String)
    (hlow : toLowerCase "" = "") (templates : List Template) (c : String) :
    (c = "all" → filteredTemplates toLowerCase templates c "" = templates) ∧
      (c ≠ "all" → filteredTemplates toLowerCase templates c "" =
        templates.filter (fun t => decide (t.category = c))) ∧
      (c ≠ "all" → ∀ t, t ∈ filteredTemplates toLowerCase templates c "" ↔
        t ∈ templates ∧ t.category = c) := by
  have hne : c ≠ "all" → filteredTemplates toLowerCase templates c "" =
      templates.filter (fun t => decide (t.category = c)) := by
    intro hc
    rw [filteredTemplates_empty_search toLowerCase hlow]
    apply List.filter_congr
    intro t _
    have hc2 : (c == "all") = false := by simpa using hc
    by_cases ht : t.category = c <;> simp [matchesCategory, hc2, ht]
  refine ⟨?_, hne, ?_⟩
  · intro hc
    subst hc
    exact filteredTemplates_all_empty_search toLowerCase hlow templates
  · intro hc t
    rw [hne hc, List.mem_filter]
    simp

theorem filteredTemplates_by_category_witness :
    asciiToLowerCase "" = "" ∧
      filteredTemplates asciiToLowerCase (codeTemplate :: mockData) "all" "" =
        codeTemplate :: mockData ∧
      filteredTemplates asciiToLowerCase (codeTemplate :: mockData) "code" "" =
        (codeTemplate :: mockData).filter (fun t => decide (t.category = "code")) :=
  ⟨by decide,
    (filteredTemplates_by_category asciiToLowerCase (by decide) (codeTemplate :: mockData)
      "all").1 rfl,
    (filteredTemplates_by_category asciiToLowerCase (by decide) (codeTemplate :: mockData)
      "code").2.1 (by decide)⟩

/-! ## Narrowing -/

theorem filter_sublist_filter_of_imp {α : Type} (p q : α → Bool)
    (h : ∀ a, p a = true → q a = true) (l : List α) :
    List.Sublist (l.filter p) (l.filter q) := by
  induction l with
  | nil => simp
  | cons a l ih =>
    by_cases hp : p a = true
    · simp only [List.filter_cons, hp, h a hp, if_true]
      exact ih.cons₂ a
    · by_cases hq : q a = true
      · simp only [List.filter_cons, hp, hq, if_true, if_false]
        exact ih.cons a
      · simp only [List.filter_cons, hp, hq, if_false]
        exact ih

theorem truthy_filterCallback_of_lower_contained (toLowerCase : String → String)
    (c s s' : String) (hsub : (toLowerCase s).data <:+: (toLowerCase s').data)
    (t : Template) (ht : truthy (filterCallback toLowerCase c s' t) = true) :
    truthy (filterCallback toLowerCase c s t) = true := by
  rw [truthy_filterCallback_iff] at ht ⊢
  obtain ⟨hc, hs | ⟨tag, htag, hs⟩⟩ := ht
  · exact ⟨hc, Or.inl (hsub.trans hs)⟩
  · exact ⟨hc, Or.inr ⟨tag, htag, hsub.trans hs⟩⟩

theorem truthy_filterCallback_all (toLowerCase : String → String) (c s : String)
    (t : Template) (ht : truthy (filterCallback toLowerCase c s t) = true) :
    truthy (filterCallback toLowerCase "all" s t) = true := by
  rw [truthy_filterCallback_iff] at ht ⊢
  exact ⟨Or.inl rfl, ht.2⟩

theorem asciiToLowerCase_contained (a b : String) (h : a.data <:+: b.data) :
    (asciiToLowerCase a).data <:+: (asciiToLowerCase b).data :=
  List.IsInfix.map Char.toLower h

/-- C11, as stated, fails: lower-casing does not preserve the substring relation.  The
capital sigma alone is a substring of `A` followed by the capital sigma; lower-cased,
the first is the small sigma and the second is `a` followed by the final sigma.  The
template titled `a` followed by the final sigma is visible for the longer search text
and not for the shorter one. -/
theorem filteredTemplates_not_monotone_sigma :
    sigmaSearch.data <:+: aSigmaSearch.data ∧
      sigmaToLowerCase sigmaSearch = ⟨[smallSigma]⟩ ∧
      sigmaToLowerCase aSigmaSearch = ⟨['a', finalSigma]⟩ ∧
      finalSigmaTemplate ∈
        filteredTemplates sigmaToLowerCase [finalSigmaTemplate] "all" aSigmaSearch ∧
      finalSigmaTemplate ∉
        filteredTemplates sigmaToLowerCase [finalSigmaTemplate] "all" sigmaSearch ∧
      ¬ (∀ (toLowerCase : String → String) (templates : List Template) (c s s' : String),
          s.data <:+: s'.data →
          ∀ t ∈ filteredTemplates toLowerCase templates c s',
            t ∈ filteredTemplates toLowerCase templates c s) := by
  have hsub : sigmaSearch.data <:+: aSigmaSearch.data := ⟨['A'], [], by decide⟩
  refine ⟨hsub, by decide, by decide, by decide, by decide, ?_⟩
  intro h
  have h1 := h sigmaToLowerCase [finalSigmaTemplate] "all" sigmaSearch aSigmaSearch hsub
    finalSigmaTemplate (by decide)
  revert h1
  decide

/-- C11, amended: for every template list and active category `c`, when the lower-cased
search text `s` is a substring of the lower-cased search text `s'`, every template
visible for `(c, s')` is visible for `(c, s)`, and the first list is a sub-sequence of
the second; for every search text `s` the list visible for `(c, s)` is a sub-sequence
of the list visible for `("all", s)`; and under the ASCII lower-casing the first
statement holds whenever `s` itself is a substring of `s'`. -/
theorem filteredTemplates_narrowing (toLowerCase : String → String)
    (templates : List Template) (c s s' : String) :
    ((toLowerCase s).data <:+: (toLowerCase s').data →
        (∀ t ∈ filteredTemplates toLowerCase templates c s',
          t ∈ filteredTemplates toLowerCase templates c s) ∧
        List.Sublist (filteredTemplates toLowerCase templates c s')
          (filteredTemplates toLowerCase templates c s)) ∧
      List.Sublist (filteredTemplates toLowerCase templates c s)
        (filteredTemplates toLowerCase templates "all" s) ∧
      (s.data <:+: s'.data →
        ∀ t ∈ filteredTemplates asciiToLowerCase templates c s',
          t ∈ filteredTemplates asciiToLowerCase templates c s) := by
  refine ⟨?_, ?_, ?_⟩
  · intro hsub
    have hsl : List.Sublist (filteredTemplates toLowerCase templates c s')
        (filteredTemplates toLowerCase templates c s) :=
      filter_sublist_filter_of_imp _ _
        (truthy_filterCallback_of_lower_contained toLowerCase c s s' hsub) templates
    exact ⟨fun t ht => hsl.subset ht, hsl⟩
  · exact filter_sublist_filter_of_imp _ _ (truthy_filterCallback_all toLowerCase c s)
      templates
  · intro hsub t ht
    exact (filter_sublist_filter_of_imp _ _
      (truthy_filterCallback_of_lower_contained asciiToLowerCase c s s'
        (asciiToLowerCase_contained s s' hsub)) templates).subset ht

theorem filteredTemplates_narrowing_witness :
    (asciiToLowerCase "act").data <:+: (asciiToLowerCase "REACT").data ∧
      List.Sublist (filteredTemplates asciiToLowerCase mockData "code" "REACT")
        (filteredTemplates asciiToLowerCase mockData "code" "act") ∧
      List.Sublist (filteredTemplates asciiToLowerCase mockData "code" "act")
        (filteredTemplates asciiToLowerCase mockData "all" "act") :=
  ⟨by decide,
    ((filteredTemplates_narrowing asciiToLowerCase mockData "code" "act" "REACT").1
      (by decide)).2,
    (filteredTemplates_narrowing asciiToLowerCase mockData "code" "act" "REACT").2.1⟩

end PromptEnhancer
